import Mathlib

/-!
Shallow embedding of the stagehand act/observe/extract orchestration pipeline
(src/lib/index.ts) and of the Anthropic LLM client
(src/lib/llm/AnthropicClient.ts), with theorems checking the written
specification against the code.

Conventions of the embedding:
derived from the TypeScript source; promises that can reject are modelled as
`Except`, a raced set of asynchronous conditions is modelled as a value of an
outcome type naming which condition won the race, JavaScript runtime errors
(such as a TypeError from indexing into `undefined`) are modelled as `none` of
an `Option`-returning function, and byte buffers are carried as opaque
strings (the base64 transcoding performed by `Buffer.toString` is a bijective
re-encoding whose image we represent by the underlying bytes).
-/

/-- A JavaScript `Error` value as observed by the catch blocks in the source:
only the `message` and `stack` fields are ever read. -/
structure JSError where
  message : String
  stack : String
deriving DecidableEq, Repr

/-- A structured log record `\x7bcategory, message, level\x7d` as passed to
`Stagehand.log` in src/lib/index.ts. -/
structure LogEntry where
  category : Option String
  message : String
  level : Nat
deriving DecidableEq, Repr

/-- The typed result that `Stagehand.act` returns to its caller
(src/lib/index.ts lines 828-832). -/
structure ActResult where
  success : Bool
  message : String
  action : String
deriving DecidableEq, Repr

/-- Embedding of `Stagehand.act` (src/lib/index.ts lines 846-870): the public
method delegates to `this.actHandler.act` and attaches a `.catch` handler.
The handler promise either fulfils with an `ActResult` or rejects with a
`JSError`; the catch branch logs and converts the rejection into a typed
`\x7bsuccess: false, message, action\x7d` result carrying the original
instruction string. -/
def act (action : String) (handlerOutcome : Except JSError ActResult) : ActResult :=
  match handlerOutcome with
  | Except.ok r => r
  | Except.error e =>
      { success := false
        message := "Internal error: Error acting: " ++ e.message
        action := action }

/-- The log record emitted by the catch branch of `Stagehand.act`
(src/lib/index.ts lines 860-863). -/
def actCatchLog (e : JSError) : LogEntry :=
  { category := some "act"
    message := "Error acting: " ++ e.message ++ "\nTrace: " ++ e.stack
    level := 1 }

/-- Which of the raced conditions inside `Stagehand._waitForSettledDom`
(src/lib/index.ts lines 562-578) settles the `Promise.race` first:
the in-page `waitForDomSettle` signal (or its warn-and-resolve fallback),
`waitForLoadState`, `waitForSelector` on `body`, the timeout timer, or a
rejection raised by any raced promise. -/
inductive DomSettleOutcome where
  | settleSignal : DomSettleOutcome
  | loadState : DomSettleOutcome
  | bodySelector : DomSettleOutcome
  | timeoutFired : DomSettleOutcome
  | raceFailure : JSError → DomSettleOutcome
deriving DecidableEq, Repr

/-- The log record emitted when the DOM-settle timeout fires
(src/lib/index.ts lines 552-557). -/
def domSettleTimeoutLog (timeout : Nat) : LogEntry :=
  { category := some "dom"
    message := "DOM settle timeout of " ++ toString timeout ++
      "ms exceeded, continuing anyway"
    level := 1 }

/-- The log record emitted by the outer catch of `_waitForSettledDom`
(src/lib/index.ts lines 583-587). -/
def domSettleErrorLog (e : JSError) : LogEntry :=
  { category := some "dom"
    message := "Error in waitForSettledDom: " ++ e.message ++
      "\nTrace: " ++ e.stack
    level := 1 }

/-- The awaited `Promise.race` inside the inner `try` of `_waitForSettledDom`:
the timeout branch logs and resolves (it never calls `reject`), the three DOM
conditions resolve silently, and a rejection from any raced promise rejects
the race (src/lib/index.ts lines 550-578). The result carries the logs
emitted on the winning branch. -/
def domSettleRace (timeout : Nat) (outcome : DomSettleOutcome) :
    Except JSError (List LogEntry) :=
  match outcome with
  | DomSettleOutcome.timeoutFired => Except.ok [domSettleTimeoutLog timeout]
  | DomSettleOutcome.raceFailure e => Except.error e
  | _ => Except.ok []

/-- Embedding of `Stagehand._waitForSettledDom` (src/lib/index.ts lines
545-589): the whole body sits inside a `try` whose `catch` logs the error and
returns normally, so the method resolves on every outcome of the race. -/
def waitForSettledDom (timeout : Nat) (outcome : DomSettleOutcome) :
    Except JSError (List LogEntry) :=
  match domSettleRace timeout outcome with
  | Except.ok logs => Except.ok logs
  | Except.error e => Except.ok [domSettleErrorLog e]

/-- C1: whenever the underlying act handler's promise rejects, the public
`act` operation does not re-raise: it resolves with a typed result whose
`success` field is `false`, whose `message` wraps the error message, and
whose `action` field equals the instruction string passed in. -/
theorem act_never_raises (action : String) (e : JSError) :
    (act action (Except.error e)).success = false ∧
    (act action (Except.error e)).action = action ∧
    (act action (Except.error e)).message =
      "Internal error: Error acting: " ++ e.message := by
  refine ⟨rfl, rfl, rfl⟩

/-- C10: `_waitForSettledDom` never rejects: every race outcome produces a
resolved (`Except.ok`) result; the timeout branch resolves after emitting the
timeout log, and a rejection of any raced condition is caught and converted
into a logged normal return. -/
theorem waitForSettledDom_never_rejects (timeout : Nat)
    (outcome : DomSettleOutcome) (e : JSError) :
    (waitForSettledDom timeout outcome).isOk = true ∧
    waitForSettledDom timeout DomSettleOutcome.timeoutFired =
      Except.ok [domSettleTimeoutLog timeout] ∧
    waitForSettledDom timeout (DomSettleOutcome.raceFailure e) =
      Except.ok [domSettleErrorLog e] := by
  refine ⟨?_, rfl, rfl⟩
  cases outcome <;> rfl

/-- Modelled from the spec: the in-page DOM serializer `processDom` (injected
from lib/dom, not part of src/) which, per spec section 4.1, "returns the
*next unseen* chunk's text and locator map" for a page of `chunks` total
chunks. Returns the first chunk index in page order not yet in `seen`; the
fallback `0` is unreachable while unseen chunks remain. -/
def processDomChunk (chunks : Nat) (seen : List Nat) : Nat :=
  ((List.range chunks).find? (fun i => ! seen.contains i)).getD 0

/-- Embedding of the recursion of `Stagehand._extract` (src/lib/index.ts
lines 661-723): each round calls `processDom` on the chunks seen so far,
makes one inference call, pushes the returned chunk index onto `chunksSeen`,
and returns when the model signalled `completed` for this round or when
`chunksSeen.length === chunks.length`; otherwise it recurses. `completedAt r`
is the `metadata.completed` flag of the model response of round `r`
(0-based); `rounds` counts inference calls made so far. The unbounded
JavaScript recursion is modelled with explicit `fuel`; `none` means the fuel
was exhausted before the source's own termination condition fired. -/
def extractLoop (chunks : Nat) (completedAt : Nat → Bool) :
    Nat → List Nat → Nat → Option (List Nat × Nat)
  | 0, _, _ => none
  | fuel + 1, chunksSeen, rounds =>
      let chunk := processDomChunk chunks chunksSeen
      let completed := completedAt rounds
      let seen2 := chunksSeen ++ [chunk]
      let rounds2 := rounds + 1
      if completed || seen2.length == chunks then some (seen2, rounds2)
      else extractLoop chunks completedAt fuel seen2 rounds2

/-- Embedding of the requestId data flow of `Stagehand._extract`: the round's
inference call (src/lib/index.ts lines 672-683) receives the `requestId`
parameter of the current invocation, and the recursive call (lines 714-722)
passes `instruction, schema, progress, content, chunksSeen, modelName,
domSettleTimeoutMs` but omits `requestId`, so the next round receives
`undefined` (modelled as `none`). Returns the list of requestId values
carried by the successive inference calls. -/
def extractRequestIdTrace (chunks : Nat) (completedAt : Nat → Bool) :
    Nat → List Nat → Nat → Option String → List (Option String) →
    Option (List (Option String))
  | 0, _, _, _, _ => none
  | fuel + 1, chunksSeen, rounds, requestId, trace =>
      let chunk := processDomChunk chunks chunksSeen
      let completed := completedAt rounds
      let trace2 := trace ++ [requestId]
      let seen2 := chunksSeen ++ [chunk]
      if completed || seen2.length == chunks then some trace2
      else extractRequestIdTrace chunks completedAt fuel seen2 (rounds + 1)
        none trace2

theorem processDomChunk_range (chunks k : Nat) (hk : k < chunks) :
    processDomChunk chunks (List.range k) = k := by
  have hpred : (fun i => ! (List.range k).contains i) =
      (fun i => decide (k ≤ i)) := by
    funext i
    by_cases h : k ≤ i
    · have h2 : ¬ i < k := by omega
      simp [h, h2]
    · have h2 : i < k := by omega
      simp [h, h2]
  have hfind : ∀ n j : Nat, j < n →
      (List.range n).find? (fun i => decide (j ≤ i)) = some j := by
    intro n
    induction n with
    | zero => intro j hj; omega
    | succ m ih =>
        intro j hj
        rw [List.range_succ_eq_map]
        cases j with
        | zero =>
            rw [List.find?_cons_of_pos _ (by simp)]
        | succ j' =>
            have hj' : j' < m := by omega
            rw [List.find?_cons_of_neg _ (by simp), List.find?_map]
            have hcomp : ((fun i => decide (j' + 1 ≤ i)) ∘ Nat.succ) =
                (fun i => decide (j' ≤ i)) := by
              funext i
              simp [Nat.succ_le_succ_iff]
            rw [hcomp, ih j' hj']
            rfl
  unfold processDomChunk
  rw [hpred, hfind chunks k hk]
  rfl

theorem extractLoop_invariant (chunks : Nat) :
    ∀ fuel k : Nat, k + (fuel + 1) = chunks →
    extractLoop chunks (fun _ => false) (fuel + 1) (List.range k) k =
      some (List.range chunks, chunks) := by
  intro fuel
  induction fuel with
  | zero =>
      intro k hk
      have hlt : k < chunks := by omega
      have hkc : k + 1 = chunks := by omega
      unfold extractLoop
      dsimp only
      rw [processDomChunk_range chunks k hlt, ← List.range_succ, hkc]
      simp [hkc]
  | succ fuel ih =>
      intro k hk
      have hlt : k < chunks := by omega
      have hcond : ¬ ((false || ((List.range (k + 1)).length == chunks)) =
          true) := by
        simp only [Bool.false_or, List.length_range, beq_iff_eq]
        omega
      unfold extractLoop
      dsimp only
      rw [processDomChunk_range chunks k hlt, ← List.range_succ,
        if_neg hcond]
      exact ih (k + 1) (by omega)

/-- C2: for extraction over `N` chunks where no round's model response has
`metadata.completed` set before the last round, `_extract` performs exactly
`N` inference rounds, the accumulated `chunksSeen` is the duplicate-free list
of all `N` chunk indices (each round having appended exactly one
previously-unseen index), and the recursion terminates exactly when
`chunksSeen.length` equals the total chunk count — with fuel `N` sufficing,
the source's own condition fires at round `N`. -/
theorem extract_chunk_termination (N : Nat) (hN : 1 ≤ N) :
    extractLoop N (fun _ => false) N [] 0 = some (List.range N, N) ∧
    (List.range N).length = N ∧ (List.range N).Nodup := by
  refine ⟨?_, List.length_range N, List.nodup_range N⟩
  have h := extractLoop_invariant N (N - 1) 0 (by omega)
  have hfuel : N - 1 + 1 = N := by omega
  rw [hfuel] at h
  simpa using h

/-- Witness for C2 at `N = 3`. -/
theorem extract_chunk_termination_witness :
    extractLoop 3 (fun _ => false) 3 [] 0 = some (List.range 3, 3) ∧
    (List.range 3).length = 3 ∧ (List.range 3).Nodup :=
  extract_chunk_termination 3 (by decide)

/-- C5: evaluation of the requestId data flow of `_extract` on a 2-chunk
extraction with no early completion, started with the generated requestId
`r`: the first round's inference call carries `some "r"` but the second
round's carries `none`, because the recursive call omits the `requestId`
field — the rounds do not all share the requestId generated for the call. -/
theorem extract_requestId_not_propagated :
    extractRequestIdTrace 2 (fun _ => false) 2 [] 0 (some "r") [] =
      some [some "r", none] ∧ (some "r" : Option String) ≠ none := by
  exact ⟨rfl, by decide⟩

/-- One element of `observationResponse.elements` as returned by the
observation inference call consumed in `Stagehand._observe`
(src/lib/index.ts line 791): a synthetic element id plus a natural-language
description. -/
structure ObservedElement where
  elementId : Nat
  description : String
deriving DecidableEq, Repr

/-- One entry of the list returned by `_observe` to its caller
(src/lib/index.ts lines 791-800): a resolved selector string and the
description. -/
structure ObserveResult where
  selector : String
  description : String
deriving DecidableEq, Repr

/-- Embedding of the element-to-selector mapping in `Stagehand._observe`
(src/lib/index.ts lines 791-800). The `selectorMap` is the numeric-keyed
record of xpath lists produced by the DOM snapshot; for each element the
source evaluates `selectorMap[elementId][0]` with no membership check, so an
`elementId` absent from the map indexes `[0]` into `undefined` and throws a
TypeError, aborting the whole batch — modelled as `none`. An entry whose
xpath list is empty yields the JavaScript string `"xpath=undefined"`. -/
def resolveObserveElements (selectorMap : List (Nat × List String)) :
    List ObservedElement → Option (List ObserveResult)
  | [] => some []
  | el :: rest =>
      match selectorMap.lookup el.elementId with
      | none => none
      | some paths =>
          match resolveObserveElements selectorMap rest with
          | none => none
          | some rs =>
              some ({ selector := "xpath=" ++ paths.headD "undefined"
                      description := el.description } :: rs)

/-- Counterexample to C3 as stated: with a snapshot mapping only element id
`1` and a model response listing ids `1` and `2`, the claim predicts that id
`2` is dropped with a warning and the batch returns the resolved entry for
id `1` alone; the code instead throws while mapping (the whole batch fails
and no list is returned). -/
theorem observe_unknown_id_crashes :
    resolveObserveElements [(1, ["//a"])]
      [{ elementId := 1, description := "a" },
       { elementId := 2, description := "b" }] = none ∧
    resolveObserveElements [(1, ["//a"])]
      [{ elementId := 1, description := "a" },
       { elementId := 2, description := "b" }] ≠
      some [{ selector := "xpath=//a", description := "a" }] := by
  exact ⟨rfl, by decide⟩

/-- C3 amended: an elementId absent from the snapshot's selectorMap is not
dropped — it makes the whole observation batch fail; when every returned
elementId is present in the selectorMap, the mapping succeeds, returns one
entry per element, and every returned selector is a resolved locator string
whose first six characters are `xpath=` (never a raw element id). -/
theorem observe_resolves_known_ids (selectorMap : List (Nat × List String))
    (elements : List ObservedElement)
    (h : elements.all
      (fun el => (selectorMap.lookup el.elementId).isSome) = true) :
    (resolveObserveElements selectorMap elements).isSome = true ∧
    ((resolveObserveElements selectorMap elements).getD []).length =
      elements.length ∧
    ((resolveObserveElements selectorMap elements).getD []).all
      (fun r => r.selector.data.take 6 == "xpath=".data) = true := by
  induction elements with
  | nil => exact ⟨rfl, rfl, rfl⟩
  | cons el rest ih =>
      simp only [List.all_cons, Bool.and_eq_true] at h
      obtain ⟨hel, hrest⟩ := h
      obtain ⟨paths, hpaths⟩ := Option.isSome_iff_exists.mp hel
      obtain ⟨hsome, hlen, hall⟩ := ih hrest
      obtain ⟨rs, hrs⟩ := Option.isSome_iff_exists.mp hsome
      unfold resolveObserveElements
      rw [hpaths, hrs]
      rw [hrs] at hlen hall
      refine ⟨rfl, ?_, ?_⟩
      · simpa using hlen
      · simp only [Option.getD_some, List.all_cons, Bool.and_eq_true]
        refine ⟨?_, by simpa using hall⟩
        have hdata : ("xpath=" ++ paths.headD "undefined").data.take 6 =
            "xpath=".data := by
          rw [String.data_append]
          have h6 : ("xpath=".data).length = 6 := rfl
          rw [← h6, List.take_left]
        simp [hdata]

/-- Witness for C3's amended theorem on a concrete snapshot and response. -/
theorem observe_resolves_known_ids_witness :
    (resolveObserveElements [(1, ["//a"]), (2, ["//b"])]
      [{ elementId := 2, description := "btn" }]).isSome = true ∧
    ((resolveObserveElements [(1, ["//a"]), (2, ["//b"])]
      [{ elementId := 2, description := "btn" }]).getD []).length =
      [({ elementId := 2, description := "btn" } : ObservedElement)].length ∧
    ((resolveObserveElements [(1, ["//a"]), (2, ["//b"])]
      [{ elementId := 2, description := "btn" }]).getD []).all
      (fun r => r.selector.data.take 6 == "xpath=".data) = true :=
  observe_resolves_known_ids [(1, ["//a"]), (2, ["//b"])]
    [{ elementId := 2, description := "btn" }] (by decide)

/-- The observable outcome of the vision branch of `Stagehand._observe`
(src/lib/index.ts lines 761-780): whether an annotated screenshot was taken
and attached as the inference image, the DOM text handed to the observation
inference call, and whether the vision-skip message was logged. -/
structure VisionGateResult where
  screenshotTaken : Bool
  image : Option String
  outputString : String
  skipLogged : Bool
deriving DecidableEq, Repr

/-- Embedding of the vision branch of `Stagehand._observe` (src/lib/index.ts
lines 761-780). `modelsWithVision` is the vision-capable model list declared
in src/lib/llm/LLMClient.ts (a file outside src/, so the list is a
parameter); when `useVision === true` and the model is not in that list the
code logs a skip and leaves the serialized DOM text untouched, otherwise it
takes an annotated screenshot and replaces the DOM text with the image
placeholder. -/
def observeVisionGate (modelsWithVision : List String) (model : String)
    (useVision : Bool) (outputString : String) : VisionGateResult :=
  if useVision = true then
    if modelsWithVision.contains model = false then
      { screenshotTaken := false
        image := none
        outputString := outputString
        skipLogged := true }
    else
      { screenshotTaken := true
        image := some "annotatedScreenshot"
        outputString := "n/a. use the image to find the elements."
        skipLogged := false }
  else
    { screenshotTaken := false
      image := none
      outputString := outputString
      skipLogged := false }

/-- C9: for an observation with `useVision: true` and a model outside the
vision-capable set, no screenshot is taken, no image is attached to the
inference request, the skip is logged, and the serialized DOM text is used
unchanged (not replaced with the image placeholder). -/
theorem observe_vision_skip (modelsWithVision : List String) (model : String)
    (outputString : String)
    (h : modelsWithVision.contains model = false) :
    observeVisionGate modelsWithVision model true outputString =
      { screenshotTaken := false
        image := none
        outputString := outputString
        skipLogged := true } := by
  unfold observeVisionGate
  rw [if_pos rfl, if_pos h]

/-- Witness for C9 with the concrete vision-capable list containing only
`gpt-4o` and the non-vision model `o1-mini`. -/
theorem observe_vision_skip_witness :
    observeVisionGate ["gpt-4o"] "o1-mini" true "serialized dom" =
      { screenshotTaken := false
        image := none
        outputString := "serialized dom"
        skipLogged := true } :=
  observe_vision_skip ["gpt-4o"] "o1-mini" "serialized dom" (by decide)

/-- One entry of the LLM response cache. Modelled from the spec (the cache
implementation lives in lib/cache, outside src/): per spec section 3, an
entry is content-addressed by a fingerprint key, holds the structured
response value, and is "additionally indexed by an ephemeral request ID for
targeted invalidation". The requestId is optional because the LLM client is
constructed with whatever requestId value the call chain supplied, which may
be `undefined`. -/
structure CacheEntry where
  key : String
  value : String
  requestId : Option String
deriving DecidableEq, Repr

/-- Modelled from the spec: `LLMProvider.cleanRequestCache` (lib/llm and
lib/cache, outside src/), which per spec sections 3 and 7 deletes every cache
entry indexed under the given ephemeral request id and nothing else. -/
def cleanRequestCache (cache : List CacheEntry) (requestId : String) :
    List CacheEntry :=
  cache.filter (fun e => ! (e.requestId == some requestId))

/-- Embedding of the catch branch shared by the public `Stagehand.extract`
(src/lib/index.ts lines 897-908) and `Stagehand.observe` (lines 933-944):
on an internal failure the branch logs, purges the cache entries of this
call's requestId when caching is enabled, and re-throws the same error.
Returns the cache after cleanup together with the re-raised outcome. -/
def requestFailureCleanup (enableCaching : Bool) (requestId : String)
    (e : JSError) (cache : List CacheEntry) :
    List CacheEntry × Except JSError Unit :=
  (if enableCaching then cleanRequestCache cache requestId else cache,
    Except.error e)

/-- C4: when the public `extract` (or `observe`) fails internally with
caching enabled, it purges every cache entry tied to the call's request id
and then re-raises the error, so no cache entry keyed under that request id
remains retrievable after the call throws. -/
theorem extract_failure_purges_cache (enableCaching : Bool)
    (requestId : String) (e : JSError) (cache : List CacheEntry)
    (h : enableCaching = true) :
    ((requestFailureCleanup enableCaching requestId e cache).1.any
      (fun entry => entry.requestId == some requestId)) = false ∧
    (requestFailureCleanup enableCaching requestId e cache).2 =
      Except.error e := by
  subst h
  refine ⟨?_, rfl⟩
  unfold requestFailureCleanup cleanRequestCache
  simp only [if_pos rfl, List.any_filter]
  simp

/-- Witness for C4 on a concrete cache holding one entry of the failing
request and one entry of an unrelated request. -/
theorem extract_failure_purges_cache_witness :
    ((requestFailureCleanup true "r1"
      { message := "boom", stack := "trace" }
      [{ key := "k1", value := "v1", requestId := some "r1" },
       { key := "k2", value := "v2", requestId := some "r2" }]).1.any
      (fun entry => entry.requestId == some "r1")) = false ∧
    (requestFailureCleanup true "r1"
      { message := "boom", stack := "trace" }
      [{ key := "k1", value := "v1", requestId := some "r1" },
       { key := "k2", value := "v2", requestId := some "r2" }]).2 =
      Except.error { message := "boom", stack := "trace" } :=
  extract_failure_purges_cache true "r1"
    { message := "boom", stack := "trace" }
    [{ key := "k1", value := "v1", requestId := some "r1" },
     { key := "k2", value := "v2", requestId := some "r2" }] rfl

/-- One block of an Anthropic message's content array: a text block or a
base64 image source block, as assembled in
src/lib/llm/AnthropicClient.ts lines 84-99. -/
inductive ContentBlock where
  | text : String → ContentBlock
  | image : (sourceType : String) → (mediaType : String) →
      (data : String) → ContentBlock
deriving DecidableEq, Repr

/-- A chat message `\x7brole, content\x7d`; a plain string content is the
singleton text block. -/
structure ChatMessage where
  role : String
  content : List ContentBlock
deriving DecidableEq, Repr

/-- The optional image attachment of `ChatCompletionOptions`
(`options.image` in src/lib/llm/AnthropicClient.ts): a screenshot buffer and
an optional description. -/
structure ImageAttachment where
  buffer : String
  description : Option String
deriving DecidableEq, Repr

/-- The fields of `ChatCompletionOptions` that
`AnthropicClient.createChatCompletion` reads (src/lib/llm/AnthropicClient.ts
lines 36-156): model, messages, temperature, image, response schema, tools,
retry counter, and max_tokens. The response schema and the tool descriptors
are carried opaquely as strings, since only their identity matters to the
claims under check. -/
structure ChatCompletionOptions where
  model : String
  messages : List ChatMessage
  temperature : Option Rat
  image : Option ImageAttachment
  response_model : Option String
  tools : Option (List String)
  retries : Option Nat
  max_tokens : Option Nat
deriving DecidableEq, Repr

/-- The `cacheOptions` object built at src/lib/llm/AnthropicClient.ts lines
50-58 and passed verbatim to `cache.get` and `cache.set` as the fingerprint
material of the cache key. -/
structure CacheOptions where
  model : String
  messages : List ChatMessage
  temperature : Option Rat
  image : Option ImageAttachment
  response_model : Option String
  tools : Option (List String)
  retries : Option Nat
deriving DecidableEq, Repr

/-- Embedding of the `cacheOptions` construction
(src/lib/llm/AnthropicClient.ts lines 50-58): the fingerprint content is
exactly `\x7bmodel, messages, temperature, image, response_model, tools,
retries\x7d` of the request options. -/
def cacheOptions (o : ChatCompletionOptions) : CacheOptions :=
  { model := o.model
    messages := o.messages
    temperature := o.temperature
    image := o.image
    response_model := o.response_model
    tools := o.tools
    retries := o.retries }

/-- The multimodal screenshot message built at
src/lib/llm/AnthropicClient.ts lines 84-99: a user message whose content is
the base64 image block followed by the optional description text block. -/
def screenshotMessage (img : ImageAttachment) : ChatMessage :=
  { role := "user"
    content := [ContentBlock.image "base64" "image/jpeg" img.buffer] ++
      (match img.description with
       | some d => [ContentBlock.text d]
       | none => []) }

/-- The value of `options.messages` after the image branch of
`createChatCompletion` ran (src/lib/llm/AnthropicClient.ts line 101): when
an image is attached the screenshot message is appended to the field. -/
def messagesAfterImageAppend (o : ChatCompletionOptions) : List ChatMessage :=
  match o.image with
  | some img => o.messages ++ [screenshotMessage img]
  | none => o.messages

/-- The message list of the outgoing provider request
(src/lib/llm/AnthropicClient.ts lines 146-152): the request is built from
`userMessages`, the non-system messages captured at lines 79-81 — before the
image branch reassigns `options.messages` — so it is the filter of the
original message list. -/
def anthropicOutgoingMessages (o : ChatCompletionOptions) : List ChatMessage :=
  o.messages.filter (fun m => m.role ≠ "system")

/-- A content block is an image block. -/
def isImageBlock : ContentBlock → Bool
  | ContentBlock.image _ _ _ => true
  | ContentBlock.text _ => false

/-- A message carries an image content block. -/
def hasImageBlock (m : ChatMessage) : Bool :=
  m.content.any isImageBlock

/-- C6 evaluated at the failing input: the outgoing provider request of the
Anthropic client never contains the attached image. In general the outgoing
message list does not depend on `options.image` at all (the screenshot
message is appended to `options.messages` only after `userMessages` was
captured), and concretely, for a request with a system prompt, one user text
message and an attached screenshot, the outgoing list contains no image
block while the appended-to `options.messages` field does. -/
theorem anthropic_image_never_sent :
    (∀ (o : ChatCompletionOptions) (img : ImageAttachment),
      anthropicOutgoingMessages { o with image := some img } =
        anthropicOutgoingMessages { o with image := none }) ∧
    (anthropicOutgoingMessages
      { model := "claude-3-5-sonnet-latest"
        messages := [{ role := "system", content := [ContentBlock.text "sys"] },
          { role := "user", content := [ContentBlock.text "dom text"] }]
        temperature := none
        image := some { buffer := "IMGBYTES", description := some "screenshot" }
        response_model := none
        tools := none
        retries := none
        max_tokens := none }).any hasImageBlock = false ∧
    (messagesAfterImageAppend
      { model := "claude-3-5-sonnet-latest"
        messages := [{ role := "system", content := [ContentBlock.text "sys"] },
          { role := "user", content := [ContentBlock.text "dom text"] }]
        temperature := none
        image := some { buffer := "IMGBYTES", description := some "screenshot" }
        response_model := none
        tools := none
        retries := none
        max_tokens := none }).any hasImageBlock = true := by
  refine ⟨fun o img => rfl, by decide, by decide⟩

/-- JavaScript truthiness test of the optional `retries` counter:
`!options.retries` is true when the field is `undefined` or `0`
(src/lib/llm/AnthropicClient.ts line 214). -/
def jsFalsy : Option Nat → Bool
  | none => true
  | some n => n == 0

/-- Embedding of the structured-output branch of
`AnthropicClient.createChatCompletion` (src/lib/llm/AnthropicClient.ts lines
204-223): `responses attempt` is the tool-use input found in the provider
response of the given call (in call order, `none` when the response holds no
tool-use block with an input). On `none` the client retries itself with
`retries` set to `(options.retries ?? 0) + 1` while `!options.retries ||
options.retries < 5`, and otherwise throws the fixed error. -/
def createChatCompletionStructured (responses : Nat → Option String)
    (attempt : Nat) (retries : Option Nat) : Except String String :=
  match responses attempt with
  | some input => Except.ok input
  | none =>
      if jsFalsy retries || decide (retries.getD 0 < 5) then
        createChatCompletionStructured responses (attempt + 1)
          (some (retries.getD 0 + 1))
      else
        Except.error
          "Create Chat Completion Failed: No tool use with input in response"
termination_by 6 - retries.getD 0
decreasing_by
  cases retries with
  | none => simp
  | some n =>
      simp only [jsFalsy, Bool.or_eq_true, beq_iff_eq, decide_eq_true_eq,
        Option.getD_some] at *
      omega

/-- C7: the structured-output path of the Anthropic client returns the
tool-use input when one is present, retries on a missing tool-use input with
an incremented retry counter, still succeeds when the input first appears on
the fifth retry (the sixth provider call), and after the fixed bound of five
retries fails with the explicit error instead of retrying further (a result
first available on a seventh call is never reached). -/
theorem anthropic_structured_retry_bound (x : String) :
    createChatCompletionStructured (fun _ => some x) 0 none = Except.ok x ∧
    createChatCompletionStructured (fun i => if i == 5 then some x else none)
      0 none = Except.ok x ∧
    createChatCompletionStructured (fun _ => none) 0 none =
      Except.error
        "Create Chat Completion Failed: No tool use with input in response" ∧
    createChatCompletionStructured (fun i => if i == 6 then some x else none)
      0 none =
      Except.error
        "Create Chat Completion Failed: No tool use with input in response" := by
  refine ⟨?_, ?_, ?_, ?_⟩
  · rw [createChatCompletionStructured]
  · rw [createChatCompletionStructured]
    norm_num [jsFalsy]
    rw [createChatCompletionStructured]
    norm_num [jsFalsy]
    rw [createChatCompletionStructured]
    norm_num [jsFalsy]
    rw [createChatCompletionStructured]
    norm_num [jsFalsy]
    rw [createChatCompletionStructured]
    norm_num [jsFalsy]
    rw [createChatCompletionStructured]
    norm_num [jsFalsy]
  · rw [createChatCompletionStructured]
    norm_num [jsFalsy]
    rw [createChatCompletionStructured]
    norm_num [jsFalsy]
    rw [createChatCompletionStructured]
    norm_num [jsFalsy]
    rw [createChatCompletionStructured]
    norm_num [jsFalsy]
    rw [createChatCompletionStructured]
    norm_num [jsFalsy]
    rw [createChatCompletionStructured]
    norm_num [jsFalsy]
  · rw [createChatCompletionStructured]
    norm_num [jsFalsy]
    rw [createChatCompletionStructured]
    norm_num [jsFalsy]
    rw [createChatCompletionStructured]
    norm_num [jsFalsy]
    rw [createChatCompletionStructured]
    norm_num [jsFalsy]
    rw [createChatCompletionStructured]
    norm_num [jsFalsy]
    rw [createChatCompletionStructured]
    norm_num [jsFalsy]

/-- Counterexample to C8 as stated: two requests agreeing on model,
messages, temperature, image presence, response schema and tool list but
differing in the retry counter produce different cache fingerprint material,
because the `cacheOptions` object also includes `retries`. -/
theorem cacheKey_not_only_six_fields :
    cacheOptions
      { model := "claude-3-5-sonnet-latest"
        messages := [{ role := "user", content := [ContentBlock.text "dom"] }]
        temperature := none
        image := none
        response_model := some "MySchema"
        tools := none
        retries := none
        max_tokens := none } ≠
    cacheOptions
      { model := "claude-3-5-sonnet-latest"
        messages := [{ role := "user", content := [ContentBlock.text "dom"] }]
        temperature := none
        image := none
        response_model := some "MySchema"
        tools := none
        retries := some 1
        max_tokens := none } := by
  decide

/-- C8 amended: the cache key material is a deterministic function of
exactly the request fields `\x7bmodel, messages, temperature, image (the
full attachment, not merely its presence), response-schema, tool list,
retries\x7d` and of nothing else among the request's fields (in particular
`max_tokens` does not enter the key): two requests produce the same
fingerprint content precisely when they agree on those seven fields. -/
theorem cacheKey_fingerprint_fields (o1 o2 : ChatCompletionOptions) :
    cacheOptions o1 = cacheOptions o2 ↔
      (o1.model = o2.model ∧ o1.messages = o2.messages ∧
       o1.temperature = o2.temperature ∧ o1.image = o2.image ∧
       o1.response_model = o2.response_model ∧ o1.tools = o2.tools ∧
       o1.retries = o2.retries) := by
  simp [cacheOptions, CacheOptions.mk.injEq]
